import Mathlib

/-!
Verification of the GoDist syscall interposition and event-reporting layer.

The Go sources embedded here are:
  * `src/src/dara/sysnum.go` — the syscall catalog constants;
  * `src/src/os/pipe_linux.go` — `os.Pipe`;
  * `src/src/os/executable.go` — `os.Executable`;
  * `src/unnamed/part_000` — `(*File).Stat`, `statNolog`, `lstatNolog`,
    `rename`, `openFileNolog`, `(*file).close`, `(*File).read/pread/write/
    pwrite/seek`, `Truncate`, `Link`, `Symlink`, plus `newFile`.

The `dara` package's struct definitions (`GeneralType`, `GeneralSyscall`,
`UNSUPPORTEDVAL`, the kind constants) and the runtime hooks
(`Is_dara_profiling_on`, `Dara_Debug_Print`, `Report_Syscall_To_Scheduler`)
are not in the given sources; they are modelled from the spec as noted on
each such definition.  The profiling gate is a `Bool` parameter, debug
printing appends to a trace list, and reporting appends to a report list;
the results of the real host-OS operations are oracle parameters, since
the spec places the real operations outside this layer.
-/

set_option linter.unusedVariables false
set_option maxRecDepth 8000

namespace GoDist

/-! ## Syscall catalog (src/src/dara/sysnum.go, iota-assigned constants) -/

def DSYS_READ : Int := 0
def DSYS_WRITE : Int := 1
def DSYS_OPEN : Int := 2
def DSYS_CLOSE : Int := 3
def DSYS_STAT : Int := 4
def DSYS_FSTAT : Int := 5
def DSYS_LSTAT : Int := 6
def DSYS_LSEEK : Int := 7
def DSYS_PREAD64 : Int := 8
def DSYS_PWRITE64 : Int := 9
def DSYS_GETPAGESIZE : Int := 10
def DSYS_EXECUTABLE : Int := 11
def DSYS_GETPID : Int := 12
def DSYS_GETPPID : Int := 13
def DSYS_GETWD : Int := 14
def DSYS_READDIR : Int := 15
def DSYS_READDIRNAMES : Int := 16
def DSYS_WAIT4 : Int := 17
def DSYS_KILL : Int := 18
def DSYS_GETUID : Int := 19
def DSYS_GETEUID : Int := 20
def DSYS_GETGID : Int := 21
def DSYS_GETEGID : Int := 22
def DSYS_GETGROUPS : Int := 23
def DSYS_EXIT : Int := 24
def DSYS_RENAME : Int := 25
def DSYS_TRUNCATE : Int := 26
def DSYS_UNLINK : Int := 27
def DSYS_RMDIR : Int := 28
def DSYS_LINK : Int := 29
def DSYS_SYMLINK : Int := 30
def DSYS_PIPE2 : Int := 31
def DSYS_MKDIR : Int := 32
def DSYS_CHDIR : Int := 33
def DSYS_UNSETENV : Int := 34
def DSYS_GETENV : Int := 35
def DSYS_SETENV : Int := 36
def DSYS_CLEARENV : Int := 37
def DSYS_ENVIRON : Int := 38
def DSYS_TIMENOW : Int := 39
def DSYS_READLINK : Int := 40
def DSYS_CHMOD : Int := 41
def DSYS_FCHMOD : Int := 42
def DSYS_CHOWN : Int := 43
def DSYS_LCHOWN : Int := 44
def DSYS_FCHOWN : Int := 45
def DSYS_FTRUNCATE : Int := 46
def DSYS_FSYNC : Int := 47
def DSYS_UTIMES : Int := 48
def DSYS_FCHDIR : Int := 49
def DSYS_SETDEADLINE : Int := 50
def DSYS_SETREADDEADLINE : Int := 51
def DSYS_SETWRITEDEADLINE : Int := 52
def DSYS_NET_READ : Int := 53
def DSYS_NET_WRITE : Int := 54
def DSYS_NET_CLOSE : Int := 55
def DSYS_NET_SETDEADLINE : Int := 56
def DSYS_NET_SETREADDEADLINE : Int := 57
def DSYS_NET_SETWRITEDEADLINE : Int := 58
def DSYS_NET_SETREADBUFFER : Int := 59
def DSYS_NET_SETWRITEBUFFER : Int := 60
def DSYS_SOCKET : Int := 61
def DSYS_LISTEN_TCP : Int := 62
def DSYS_SLEEP : Int := 63

/-- The catalog constants in their source declaration order. -/
def catalog : List Int :=
  [DSYS_READ, DSYS_WRITE, DSYS_OPEN, DSYS_CLOSE, DSYS_STAT, DSYS_FSTAT,
   DSYS_LSTAT, DSYS_LSEEK, DSYS_PREAD64, DSYS_PWRITE64, DSYS_GETPAGESIZE,
   DSYS_EXECUTABLE, DSYS_GETPID, DSYS_GETPPID, DSYS_GETWD, DSYS_READDIR,
   DSYS_READDIRNAMES, DSYS_WAIT4, DSYS_KILL, DSYS_GETUID, DSYS_GETEUID,
   DSYS_GETGID, DSYS_GETEGID, DSYS_GETGROUPS, DSYS_EXIT, DSYS_RENAME,
   DSYS_TRUNCATE, DSYS_UNLINK, DSYS_RMDIR, DSYS_LINK, DSYS_SYMLINK,
   DSYS_PIPE2, DSYS_MKDIR, DSYS_CHDIR, DSYS_UNSETENV, DSYS_GETENV,
   DSYS_SETENV, DSYS_CLEARENV, DSYS_ENVIRON, DSYS_TIMENOW, DSYS_READLINK,
   DSYS_CHMOD, DSYS_FCHMOD, DSYS_CHOWN, DSYS_LCHOWN, DSYS_FCHOWN,
   DSYS_FTRUNCATE, DSYS_FSYNC, DSYS_UTIMES, DSYS_FCHDIR, DSYS_SETDEADLINE,
   DSYS_SETREADDEADLINE, DSYS_SETWRITEDEADLINE, DSYS_NET_READ,
   DSYS_NET_WRITE, DSYS_NET_CLOSE, DSYS_NET_SETDEADLINE,
   DSYS_NET_SETREADDEADLINE, DSYS_NET_SETWRITEDEADLINE,
   DSYS_NET_SETREADBUFFER, DSYS_NET_SETWRITEBUFFER, DSYS_SOCKET,
   DSYS_LISTEN_TCP, DSYS_SLEEP]

/-! ## Encoded values and event records (dara package, modelled from spec) -/

/-- Modelled from the spec: the kind tags of the `dara.GeneralType` tagged
union (the `dara` package's type declarations are not under src/; the call
sites use `dara.INTEGER`, `dara.INTEGER64`, `dara.STRING`, `dara.ARRAY`,
`dara.FILE`, `dara.POINTER`, `dara.ERROR`). -/
inductive DKind where
  | INTEGER
  | INTEGER64
  | STRING
  | ARRAY
  | FILE
  | POINTER
  | ERROR
deriving DecidableEq

/-- Modelled from the spec: `dara.UNSUPPORTEDVAL`, the marker stored in the
`Unsupported` field for Pointer/Error kinds; the concrete value is not in
src/, any fixed value serves. -/
def UNSUPPORTEDVAL : Int := 1

/-- Modelled from the spec: the fixed capacity of the `String` byte-array
field of `dara.GeneralType` (the spec states a fixed buffer capacity but
names no number and the struct declaration is not under src/). -/
def STR_CAP : Nat := 256

/-- The semantics of Go's `copy(buf[:], s)` where `buf` is a zeroed byte
array of length `cap`: the first `min s.length cap` bytes of `s` land in
the buffer, the remainder of the buffer keeps its zero bytes.  The result
is the full buffer contents, always exactly `cap` bytes. -/
def goCopy (cap : Nat) (s : List Char) : List Char :=
  s.take cap ++ List.replicate (cap - s.length) (Char.ofNat 0)

/-- Modelled from the spec: `dara.GeneralType`, one tagged encoded value.
Field defaults are the Go zero values (the `String` buffer zero value is
`STR_CAP` zero bytes). -/
structure GeneralType where
  Ty : DKind := .INTEGER
  Integer : Int := 0
  Integer64 : Int := 0
  Str : List Char := List.replicate STR_CAP (Char.ofNat 0)
  Unsupported : Int := 0
deriving DecidableEq

/-- The Go zero value of `dara.GeneralType`, used for unpopulated array
slots (the zero kind tag is taken to be the first enum constant). -/
def GeneralType.zero : GeneralType := {}

/-- The semantics of the Go composite literal `[10]dara.GeneralType{a, b}`:
the listed elements followed by zero values up to length 10. -/
def arr10 (l : List GeneralType) : List GeneralType :=
  l ++ List.replicate (10 - l.length) GeneralType.zero

/-- Modelled from the spec: `dara.GeneralSyscall`, the Event Record.  The
call sites construct it positionally as
`dara.GeneralSyscall{num, nargs, nrets, args, rets}`. -/
structure GeneralSyscall where
  SyscallNum : Int
  NumArgs : Int
  NumRets : Int
  Args : List GeneralType
  Rets : List GeneralType
deriving DecidableEq

/-- One delivery on the Reporting Channel.  `runtime.Report_Syscall_To_Scheduler`
is called with an identity and a record; `syscall.Report_Syscall_To_Scheduler`
(in `Executable`) is called with the identity alone, modelled as a report
whose record is `none`. -/
structure Report where
  id : Int
  record : Option GeneralSyscall
deriving DecidableEq

/-- The observable side effects of one interposition point: the reports
delivered to the Reporting Channel and the diagnostic trace lines. -/
structure Effects where
  reports : List Report := []
  trace : List String := []
deriving DecidableEq

/-! ## Go-side values: errors, files, file info -/

/-- The Go error values the embedded functions construct or inspect:
`&PathError{op, path, err}`, `&LinkError{op, old, new, err}`,
`NewSyscallError(call, err)`, `ErrInvalid`, `ErrClosed`,
`poll.ErrFileClosing`, and raw errnos from the host OS. -/
inductive GoError where
  | pathError (op path : String) (err : GoError)
  | linkError (op oldname newname : String) (err : GoError)
  | syscallError (call : String) (err : GoError)
  | errInvalid
  | errClosed
  | errFileClosing
  | errno (e : Nat)
deriving DecidableEq

/-- Linux errno for "function not implemented", tested by `os.Pipe`. -/
def ENOSYS : Nat := 38

/-- Linux errno for "file exists", returned by `rename`. -/
def EEXIST : Nat := 17

/-- An open `os.File`: the poll descriptor is collapsed to its fd, and the
name is the one recorded at creation.  (Go splits this between `File` and
the embedded `*file`; a nil `*File` is modelled as `none` at use sites.) -/
structure File where
  fd : Int
  name : String
deriving DecidableEq

/-- The kind argument of `newFile`. -/
inductive NewFileKind where
  | kindNewFile
  | kindOpenFile
  | kindPipe
deriving DecidableEq

/-- `newFile(fd, name, kind)`: nil when the descriptor is negative,
otherwise a `File` with that descriptor and name.  Poller registration and
the nonblocking toggle are host-OS interactions with no effect on the
returned identity and are not modelled. -/
def newFile (fd : Int) (name : String) (kind : NewFileKind) : Option File :=
  if fd < 0 then none else some ⟨fd, name⟩

/-- The `FileInfo` produced by `fillFileStatFromSys(&fs, name)`: the stat
payload itself comes from the host OS; the layer only fixes the name. -/
structure FileInfo where
  name : String
deriving DecidableEq

/-! ## Interposition points

Each function takes the Profiling Gate as a `Bool`, the Go arguments, and
the real operation's outcome as an oracle parameter, and returns the Go
results paired with the `Effects` (reports delivered, trace printed).  A
function that can fault (nil dereference) returns an `Option`, with `none`
standing for the runtime panic. -/

/-- Shared body of `(*File).Stat` after the gate block: `f.pfd.Fstat`
(oracle `fstatErr`), then `PathError` wrapping or `fillFileStatFromSys`. -/
def statBody (fname : String) (fstatErr : Option GoError) :
    Option FileInfo × Option GoError :=
  match fstatErr with
  | some e => (none, some (.pathError "stat" fname e))
  | none => (some ⟨fname⟩, none)

/-- `(*File).Stat` (part_000 lines 15-31).  The gate-guarded debug print
reads `f.file.name` before the `f == nil` check; on a nil receiver with
the gate active this dereferences a nil pointer (modelled `none`).  With
the gate inactive the nil check returns `ErrInvalid`. -/
def File.Stat (gate : Bool) (f : Option File) (fstatErr : Option GoError) :
    Option ((Option FileInfo × Option GoError) × Effects) :=
  match gate, f with
  | true, none => none
  | true, some ff =>
      some (statBody ff.name fstatErr, { trace := ["[FSTAT] : " ++ ff.name] })
  | false, none => some ((none, some .errInvalid), {})
  | false, some ff => some (statBody ff.name fstatErr, {})

/-- `statNolog` (part_000 lines 34-46).  The gate block only prints a
trace line; no record is built and nothing is reported. -/
def statNolog (gate : Bool) (name : String) (statErr : Option GoError) :
    (Option FileInfo × Option GoError) × Effects :=
  let eff : Effects := if gate then { trace := ["[STAT] : " ++ name] } else {}
  match statErr with
  | some e => ((none, some (.pathError "stat" name e)), eff)
  | none => ((some ⟨name⟩, none), eff)

/-- `lstatNolog` (part_000 lines 49-61).  Same shape as `statNolog`. -/
def lstatNolog (gate : Bool) (name : String) (lstatErr : Option GoError) :
    (Option FileInfo × Option GoError) × Effects :=
  let eff : Effects := if gate then { trace := ["[LSTAT] : " ++ name] } else {}
  match lstatErr with
  | some e => ((none, some (.pathError "lstat" name e)), eff)
  | none => ((some ⟨name⟩, none), eff)

/-- `if pe, ok := err.(*PathError); ok { err = pe.Err }` in `rename`. -/
def unwrapPathErr : GoError → GoError
  | .pathError _ _ e => e
  | e => e

/-- `rename` (part_000 lines 82-119).  `lstatNew` is the outcome of
`Lstat(newname)` (`none` = error, `some isDir` = success); when the new
name is an existing directory the function returns before the gate block,
so no report happens on that path.  `lstatOld` is the outcome of
`Lstat(oldname)`, `renameErrno` the outcome of `syscall.Rename`. -/
def rename (gate : Bool) (oldname newname : String) (lstatNew : Option Bool)
    (lstatOld : Option GoError) (renameErrno : Option Nat) :
    Option GoError × Effects :=
  match lstatNew with
  | some true =>
    match lstatOld with
    | some e => (some (.linkError "rename" oldname newname (unwrapPathErr e)), {})
    | none => (some (.linkError "rename" oldname newname (.errno EEXIST)), {})
  | _ =>
    let eff : Effects :=
      if gate then
        let argInfo1 : GeneralType := { Ty := .STRING, Str := goCopy STR_CAP oldname.data }
        let argInfo2 : GeneralType := { Ty := .STRING, Str := goCopy STR_CAP newname.data }
        let retInfo : GeneralType := { Ty := .ERROR, Unsupported := UNSUPPORTEDVAL }
        let syscallInfo : GeneralSyscall :=
          ⟨DSYS_RENAME, 2, 1, arr10 [argInfo1, argInfo2], arr10 [retInfo]⟩
        { reports := [⟨DSYS_RENAME, some syscallInfo⟩],
          trace := ["[RENAME] : " ++ oldname ++ " " ++ newname] }
      else {}
    match renameErrno with
    | some e => (some (.linkError "rename" oldname newname (.errno e)), eff)
    | none => (none, eff)

/-- The uninstrumented remainder of `openFileNolog`: one `syscall.Open`
(the darwin EINTR retry never recurs off darwin, and the Linux build makes
the sticky-bit `Chmod` and manual `CloseOnExec` branches inert), then
`PathError` wrapping or `newFile(fd, name, kindOpenFile)`. -/
def openReal (name : String) (openRes : Except Nat Int) :
    Option File × Option GoError :=
  match openRes with
  | .error e => (none, some (.pathError "open" name (.errno e)))
  | .ok fd => (newFile fd name .kindOpenFile, none)

/-- `openFileNolog` (part_000 lines 235-291).  The gate block builds and
reports the record — string name, integer flags, integer perm as
arguments; a Pointer placeholder and an Error placeholder as results —
before `syscall.Open` runs (the result slots carry no post-call values,
only Unsupported markers). -/
def openFileNolog (gate : Bool) (name : String) (flag : Int) (perm : Int)
    (openRes : Except Nat Int) : (Option File × Option GoError) × Effects :=
  let eff : Effects :=
    if gate then
      let argInfo1 : GeneralType := { Ty := .STRING, Str := goCopy STR_CAP name.data }
      let argInfo2 : GeneralType := { Ty := .INTEGER, Integer := flag }
      let argInfo3 : GeneralType := { Ty := .INTEGER, Integer := perm }
      let retInfo1 : GeneralType := { Ty := .POINTER, Unsupported := UNSUPPORTEDVAL }
      let retInfo2 : GeneralType := { Ty := .ERROR, Unsupported := UNSUPPORTEDVAL }
      let syscallInfo : GeneralSyscall :=
        ⟨DSYS_OPEN, 3, 2, arr10 [argInfo1, argInfo2, argInfo3], arr10 [retInfo1, retInfo2]⟩
      { reports := [⟨DSYS_OPEN, some syscallInfo⟩],
        trace := ["[OPEN] : " ++ name ++ " " ++ toString flag ++ " " ++ toString perm] }
    else {}
  (openReal name openRes, eff)

/-- `(*file).close` (part_000 lines 302-329).  Gate block reports a FILE
argument and an Error placeholder, then `pfd.Close` runs, with
`poll.ErrFileClosing` translated to `ErrClosed` and wrapped. -/
def fileClose (gate : Bool) (name : String) (pfdCloseErr : Option GoError) :
    Option GoError × Effects :=
  let eff : Effects :=
    if gate then
      let argInfo : GeneralType := { Ty := .FILE, Str := goCopy STR_CAP name.data }
      let retInfo : GeneralType := { Ty := .ERROR, Unsupported := UNSUPPORTEDVAL }
      let syscallInfo : GeneralSyscall :=
        ⟨DSYS_CLOSE, 1, 1, arr10 [argInfo], arr10 [retInfo]⟩
      { reports := [⟨DSYS_CLOSE, some syscallInfo⟩], trace := ["[CLOSE] : " ++ name] }
    else {}
  match pfdCloseErr with
  | some e =>
      let e2 := if e = .errFileClosing then GoError.errClosed else e
      (some (.pathError "close" name e2), eff)
  | none => (none, eff)

/-- `(*File).read` (part_000 lines 333-351).  `pfd.Read` runs first
(oracle `pfdRead`); the gate block then reports the file name and buffer
length as arguments and the actual byte count `n` plus an Error
placeholder as results, and `n, err` are returned unchanged. -/
def File.read (gate : Bool) (f : File) (b : List Char)
    (pfdRead : Int × Option GoError) : (Int × Option GoError) × Effects :=
  let n := pfdRead.1
  let eff : Effects :=
    if gate then
      let argInfo1 : GeneralType := { Ty := .FILE, Str := goCopy STR_CAP f.name.data }
      let argInfo2 : GeneralType := { Ty := .ARRAY, Integer := (b.length : Int) }
      let retInfo1 : GeneralType := { Ty := .INTEGER, Integer := n }
      let retInfo2 : GeneralType := { Ty := .ERROR, Unsupported := UNSUPPORTEDVAL }
      let syscallInfo : GeneralSyscall :=
        ⟨DSYS_READ, 2, 2, arr10 [argInfo1, argInfo2], arr10 [retInfo1, retInfo2]⟩
      { reports := [⟨DSYS_READ, some syscallInfo⟩], trace := ["[READ] : " ++ f.name] }
    else {}
  (pfdRead, eff)

/-- `(*File).pread` (part_000 lines 356-377).  Like `read` with an
INTEGER64 offset argument; the real `pfd.Pread` runs first. -/
def File.pread (gate : Bool) (f : File) (b : List Char) (off : Int)
    (pfdPread : Int × Option GoError) : (Int × Option GoError) × Effects :=
  let n := pfdPread.1
  let eff : Effects :=
    if gate then
      let argInfo1 : GeneralType := { Ty := .FILE, Str := goCopy STR_CAP f.name.data }
      let argInfo2 : GeneralType := { Ty := .ARRAY, Integer := (b.length : Int) }
      let argInfo3 : GeneralType := { Ty := .INTEGER64, Integer64 := off }
      let retInfo1 : GeneralType := { Ty := .INTEGER, Integer := n }
      let retInfo2 : GeneralType := { Ty := .ERROR, Unsupported := UNSUPPORTEDVAL }
      let syscallInfo : GeneralSyscall :=
        ⟨DSYS_PREAD64, 3, 2, arr10 [argInfo1, argInfo2, argInfo3], arr10 [retInfo1, retInfo2]⟩
      { reports := [⟨DSYS_PREAD64, some syscallInfo⟩],
        trace := ["[PREAD] : " ++ f.name ++ " " ++ toString off] }
    else {}
  (pfdPread, eff)

/-- `(*File).write` (part_000 lines 381-401).  `pfd.Write` runs first; the
report carries the actual byte count. -/
def File.write (gate : Bool) (f : File) (b : List Char)
    (pfdWrite : Int × Option GoError) : (Int × Option GoError) × Effects :=
  let n := pfdWrite.1
  let eff : Effects :=
    if gate then
      let argInfo1 : GeneralType := { Ty := .FILE, Str := goCopy STR_CAP f.name.data }
      let argInfo2 : GeneralType := { Ty := .ARRAY, Integer := (b.length : Int) }
      let retInfo1 : GeneralType := { Ty := .INTEGER, Integer := n }
      let retInfo2 : GeneralType := { Ty := .ERROR, Unsupported := UNSUPPORTEDVAL }
      let syscallInfo : GeneralSyscall :=
        ⟨DSYS_WRITE, 2, 2, arr10 [argInfo1, argInfo2], arr10 [retInfo1, retInfo2]⟩
      { reports := [⟨DSYS_WRITE, some syscallInfo⟩],
        trace := ["[WRITE] : " ++ f.name ++ " " ++ String.mk b] }
    else {}
  (pfdWrite, eff)

/-- `(*File).pwrite` (part_000 lines 405-428).  Unlike `write`, the gate
block runs BEFORE `pfd.Pwrite`, so the `Integer: n` result slot captures
the named return `n` while it still holds its zero value; the real
operation's count is returned to the caller but never reaches the record. -/
def File.pwrite (gate : Bool) (f : File) (b : List Char) (off : Int)
    (pfdPwrite : Int × Option GoError) : (Int × Option GoError) × Effects :=
  let n : Int := 0
  let eff : Effects :=
    if gate then
      let argInfo1 : GeneralType := { Ty := .FILE, Str := goCopy STR_CAP f.name.data }
      let argInfo2 : GeneralType := { Ty := .ARRAY, Integer := (b.length : Int) }
      let argInfo3 : GeneralType := { Ty := .INTEGER64, Integer64 := off }
      let retInfo1 : GeneralType := { Ty := .INTEGER, Integer := n }
      let retInfo2 : GeneralType := { Ty := .ERROR, Unsupported := UNSUPPORTEDVAL }
      let syscallInfo : GeneralSyscall :=
        ⟨DSYS_PWRITE64, 3, 2, arr10 [argInfo1, argInfo2, argInfo3], arr10 [retInfo1, retInfo2]⟩
      { reports := [⟨DSYS_PWRITE64, some syscallInfo⟩],
        trace := ["[PWRITE] : " ++ f.name ++ " " ++ String.mk b ++ " " ++ toString off] }
    else {}
  (pfdPwrite, eff)

/-- `(*File).seek` (part_000 lines 434-457).  `pfd.Seek` runs first; the
report carries the actual new offset as an INTEGER64 result. -/
def File.seek (gate : Bool) (f : File) (offset : Int) (whence : Int)
    (pfdSeek : Int × Option GoError) : (Int × Option GoError) × Effects :=
  let ret := pfdSeek.1
  let eff : Effects :=
    if gate then
      let argInfo1 : GeneralType := { Ty := .FILE, Str := goCopy STR_CAP f.name.data }
      let argInfo2 : GeneralType := { Ty := .INTEGER64, Integer64 := offset }
      let argInfo3 : GeneralType := { Ty := .INTEGER, Integer := whence }
      let retInfo1 : GeneralType := { Ty := .INTEGER64, Integer64 := ret }
      let retInfo2 : GeneralType := { Ty := .ERROR, Unsupported := UNSUPPORTEDVAL }
      let syscallInfo : GeneralSyscall :=
        ⟨DSYS_LSEEK, 3, 2, arr10 [argInfo1, argInfo2, argInfo3], arr10 [retInfo1, retInfo2]⟩
      { reports := [⟨DSYS_LSEEK, some syscallInfo⟩],
        trace := ["[SEEK] : " ++ f.name ++ " " ++ toString offset ++ " " ++ toString whence] }
    else {}
  (pfdSeek, eff)

/-- `Truncate` (part_000 lines 462-482).  Gate block reports name and size
arguments with an Error placeholder result, then `syscall.Truncate` runs. -/
def Truncate (gate : Bool) (name : String) (size : Int)
    (truncErrno : Option Nat) : Option GoError × Effects :=
  let eff : Effects :=
    if gate then
      let argInfo1 : GeneralType := { Ty := .STRING, Str := goCopy STR_CAP name.data }
      let argInfo2 : GeneralType := { Ty := .INTEGER64, Integer64 := size }
      let retInfo : GeneralType := { Ty := .ERROR, Unsupported := UNSUPPORTEDVAL }
      let syscallInfo : GeneralSyscall :=
        ⟨DSYS_TRUNCATE, 2, 1, arr10 [argInfo1, argInfo2], arr10 [retInfo]⟩
      { reports := [⟨DSYS_TRUNCATE, some syscallInfo⟩],
        trace := ["[TRUNCATE] : " ++ name ++ " " ++ toString size] }
    else {}
  match truncErrno with
  | some e => (some (.pathError "truncate" name (.errno e)), eff)
  | none => (none, eff)

/-- `Link` (part_000 lines 529-551).  `syscall.Link` runs first, then the
gate block reports, then the error (if any) is wrapped. -/
def Link (gate : Bool) (oldname newname : String) (linkErrno : Option Nat) :
    Option GoError × Effects :=
  let eff : Effects :=
    if gate then
      let argInfo1 : GeneralType := { Ty := .STRING, Str := goCopy STR_CAP oldname.data }
      let argInfo2 : GeneralType := { Ty := .STRING, Str := goCopy STR_CAP newname.data }
      let retInfo : GeneralType := { Ty := .ERROR, Unsupported := UNSUPPORTEDVAL }
      let syscallInfo : GeneralSyscall :=
        ⟨DSYS_LINK, 2, 1, arr10 [argInfo1, argInfo2], arr10 [retInfo]⟩
      { reports := [⟨DSYS_LINK, some syscallInfo⟩],
        trace := ["[LINK] : " ++ oldname ++ " " ++ newname] }
    else {}
  match linkErrno with
  | some e => (some (.linkError "link" oldname newname (.errno e)), eff)
  | none => (none, eff)

/-- `Symlink` (part_000 lines 555-577).  Same flow as `Link` (its trace
line even reuses the `[LINK]` prefix, as in the source). -/
def Symlink (gate : Bool) (oldname newname : String) (symlinkErrno : Option Nat) :
    Option GoError × Effects :=
  let eff : Effects :=
    if gate then
      let argInfo1 : GeneralType := { Ty := .STRING, Str := goCopy STR_CAP oldname.data }
      let argInfo2 : GeneralType := { Ty := .STRING, Str := goCopy STR_CAP newname.data }
      let retInfo : GeneralType := { Ty := .ERROR, Unsupported := UNSUPPORTEDVAL }
      let syscallInfo : GeneralSyscall :=
        ⟨DSYS_SYMLINK, 2, 1, arr10 [argInfo1, argInfo2], arr10 [retInfo]⟩
      { reports := [⟨DSYS_SYMLINK, some syscallInfo⟩],
        trace := ["[LINK] : " ++ oldname ++ " " ++ newname] }
    else {}
  match symlinkErrno with
  | some e => (some (.linkError "symlink" oldname newname (.errno e)), eff)
  | none => (none, eff)

/-- Outcome of one underlying pipe-creation call: two descriptors or an
errno. -/
inductive PipeResult where
  | ok (fd0 fd1 : Int)
  | fail (e : Nat)
deriving DecidableEq

/-- The uninstrumented body of `os.Pipe`: `syscall.Pipe2` (oracle
`pipe2Res`), the `ENOSYS` fallback to `syscall.Pipe` (oracle `pipeRes`,
with the ForkLock and `CloseOnExec` calls being host-OS interactions), and
on success the two files named `"|0"` and `"|1"`. -/
def pipeReal (pipe2Res pipeRes : PipeResult) :
    (Option File × Option File × Option GoError) × Effects :=
  match pipe2Res with
  | .ok a b => ((newFile a "|0" .kindPipe, newFile b "|1" .kindPipe, none), {})
  | .fail e =>
    if e = ENOSYS then
      match pipeRes with
      | .fail e2 => ((none, none, some (.syscallError "pipe" (.errno e2))), {})
      | .ok a b => ((newFile a "|0" .kindPipe, newFile b "|1" .kindPipe, none), {})
    else ((none, none, some (.syscallError "pipe2" (.errno e))), {})

/-- `os.Pipe` (src/src/os/pipe_linux.go lines 13-45).  With the gate
active the block evaluates `copy(retInfo1.String[:], r.name)` where `r`
is the nil named return `*File` — `r.name` goes through the embedded nil
`*file` pointer, a nil dereference before the real pipe call ever runs
(modelled `none`: the call faults, nothing is reported or returned).  With
the gate inactive the uninstrumented body runs. -/
def Pipe (gate : Bool) (pipe2Res pipeRes : PipeResult) :
    Option ((Option File × Option File × Option GoError) × Effects) :=
  if gate then none
  else some (pipeReal pipe2Res pipeRes)

/-- `os.Executable` (src/src/os/executable.go lines 25-32).  The gate
block prints and calls `syscall.Report_Syscall_To_Scheduler` with the
catalog identity ALONE — no Event Record is constructed or passed — then
the platform `executable()` result (oracle) is returned. -/
def Executable (gate : Bool) (execRes : String × Option GoError) :
    (String × Option GoError) × Effects :=
  (execRes,
   if gate then { reports := [⟨DSYS_EXECUTABLE, none⟩], trace := ["[EXECUTABLE]"] }
   else {})

/-! ## Claim helpers -/

/-- The upstream, uninstrumented `(*File).read`: `n, err = f.pfd.Read(b)`
returned unchanged. -/
def readUninstrumented (pfdRead : Int × Option GoError) : Int × Option GoError :=
  pfdRead

/-- A record has the fixed payload shape: two capacity-10 ordered lists of
tagged values (alongside its identity and declared counts). -/
def recShape (r : GeneralSyscall) : Bool :=
  r.Args.length == 10 && r.Rets.length == 10

/-- A report carries an Event Record of the fixed payload shape. -/
def repHasRecord (rep : Report) : Bool :=
  rep.record.any recShape

/-- The capacity invariant of one record: declared argument and result
counts between 0 and 10, both lists of length exactly 10, and every slot
past the declared counts still the zero value (only the first N and M
slots populated). -/
def recordWFb (r : GeneralSyscall) : Bool :=
  decide (0 ≤ r.NumArgs) && decide (r.NumArgs ≤ 10) &&
  decide (0 ≤ r.NumRets) && decide (r.NumRets ≤ 10) &&
  (r.Args.length == 10) && (r.Rets.length == 10) &&
  (r.Args.drop r.NumArgs.toNat).all (fun g => g == GeneralType.zero) &&
  (r.Rets.drop r.NumRets.toNat).all (fun g => g == GeneralType.zero)

/-- Every record a report carries (if any) satisfies the capacity
invariant. -/
def repWF (rep : Report) : Bool :=
  rep.record.all recordWFb

/-- The uninstrumented pipe body never touches the Reporting Channel:
its effects are empty on every path. -/
lemma pipeReal_effects (r2 rf : PipeResult) : (pipeReal r2 rf).2 = {} := by
  rcases r2 with ⟨a, b⟩ | e
  · rfl
  · simp only [pipeReal]
    split
    · rcases rf with ⟨a2, b2⟩ | e2 <;> rfl
    · rfl

/-- The reports of an optional interposition-point outcome: `none` (a
faulted call) delivers nothing. -/
def optReports {α : Type} (o : Option (α × Effects)) : List Report :=
  o.elim [] (fun out => out.2.reports)

/-! ## Claim theorems -/

/-- C7: the syscall catalog is a dense, zero-based, stable enumeration:
the 64 constants of `sysnum.go` in declaration order equal 0..63 (in
particular DSYS_OPEN = 2, DSYS_EXECUTABLE = 11, DSYS_RENAME = 25,
DSYS_PIPE2 = 31, DSYS_SLEEP = 63), every constant is its predecessor plus
one, and every report an interposition point delivers for a given
operation carries that operation's fixed identity, whatever the inputs
(encoding the same operation always yields the same identity). -/
theorem C7_catalog_dense_stable :
    catalog = (List.range 64).map (fun n => (n : Int)) ∧
    DSYS_READ = 0 ∧ DSYS_OPEN = 2 ∧ DSYS_EXECUTABLE = 11 ∧
    DSYS_RENAME = 25 ∧ DSYS_PIPE2 = 31 ∧ DSYS_SLEEP = 63 ∧
    (∀ i : Fin 63, catalog.getD (i.val + 1) 0 = catalog.getD i.val 0 + 1) ∧
    (∀ gate oldname newname ln lo re,
      ((rename gate oldname newname ln lo re).2.reports.all
        (fun rep => rep.id == DSYS_RENAME)) = true) ∧
    (∀ gate f b res,
      ((File.read gate f b res).2.reports.all
        (fun rep => rep.id == DSYS_READ)) = true) := by
  refine ⟨by decide, rfl, rfl, rfl, rfl, rfl, rfl, by decide, ?_, ?_⟩
  · intro gate oldname newname ln lo re
    rcases ln with _ | b
    · cases gate <;> cases re <;> rfl
    · cases b
      · cases gate <;> cases re <;> rfl
      · cases lo <;> rfl
  · intro gate f b res
    cases gate <;> rfl

/-- C8: String/FileHandle encoding via `copy` into the fixed-capacity
buffer truncates deterministically and never writes past the buffer: the
buffer always has exactly the capacity length, its payload prefix is the
first `min length capacity` bytes of the input, an input of exactly the
capacity length is encoded unchanged, and an input one byte longer loses
exactly its final byte of representable content. -/
theorem C8_copy_truncation (cap : Nat) (s : List Char) :
    (goCopy cap s).length = cap ∧
    (goCopy cap s).take (min s.length cap) = s.take (min s.length cap) ∧
    (s.length = cap → goCopy cap s = s) ∧
    (s.length = cap + 1 → goCopy cap s = s.dropLast) := by
  refine ⟨?_, ?_, ?_, ?_⟩
  · simp [goCopy, List.length_take]
    omega
  · rw [goCopy, List.take_append_of_le_length (by simp only [List.length_take]; omega),
      List.take_take]
    congr 1
    omega
  · intro h
    subst h
    simp [goCopy]
  · intro h
    have h0 : cap - s.length = 0 := by omega
    rw [goCopy, h0, List.dropLast_eq_take, h]
    simp

/-- Witness for C8 at capacity 2, with inputs of length 2 (round-trips)
and length 3 (loses exactly the final byte). -/
theorem C8_copy_truncation_witness :
    goCopy 2 ['a', 'b'] = ['a', 'b'] ∧
    goCopy 2 ['a', 'b', 'c'] = ['a', 'b', 'c'].dropLast :=
  ⟨(C8_copy_truncation 2 ['a', 'b']).2.2.1 (by decide),
   (C8_copy_truncation 2 ['a', 'b', 'c']).2.2.2 (by decide)⟩

/-- C1 (evaluating the code at the failing input): with the gate active,
`os.Pipe` reads the names of the nil named-return files inside the gate
block before the real pipe call runs, a nil dereference — the call faults
and no record carrying the post-creation names is ever delivered.  The
names `"|0"` and `"|1"` exist only in the uninstrumented body after the
real call produces the descriptors. -/
theorem C1_pipe_precapture_fault :
    Pipe true (.ok 3 4) (.ok 0 0) = none ∧
    (pipeReal (.ok 3 4) (.ok 0 0)).1 =
      (some ⟨3, "|0"⟩, some ⟨4, "|1"⟩, none) := by
  exact ⟨rfl, by decide⟩

/-- C2 (evaluating the code at the failing input): with the gate inactive
`os.Pipe` succeeds with the real operation's result, but with the gate
active the instrumentation itself faults on a call the uninstrumented
operation completes — instrumentation does make an otherwise-successful
call fail.  For contrast, `(*File).read` does return the underlying
result unchanged in both gate states. -/
theorem C2_pipe_instrumentation_fault :
    Pipe false (.ok 5 6) (.ok 0 0) =
      some ((some ⟨5, "|0"⟩, some ⟨6, "|1"⟩, none), ⟨[], []⟩) ∧
    Pipe true (.ok 5 6) (.ok 0 0) = none ∧
    (∀ gate f b res, (File.read gate f b res).1 = res) := by
  refine ⟨by decide, rfl, ?_⟩
  intro gate f b res
  cases gate <;> rfl

/-- C3 (evaluating the code at the failing input): `(*File).pwrite` with
the gate active returns the real byte count 3 to the caller, yet the
single record it reports holds 0 in its INTEGER result slot — the zero
value of the named return `n`, captured before `pfd.Pwrite` ran; and
`statNolog` with the gate active delivers no record at all.  Both
contradict "exactly one record whose result slots reflect the actual
post-call outcome". -/
theorem C3_pwrite_precall_zero_result :
    (File.pwrite true ⟨3, "f"⟩ ['a', 'b', 'c'] 0 (3, none)).1 = (3, none) ∧
    ((File.pwrite true ⟨3, "f"⟩ ['a', 'b', 'c'] 0 (3, none)).2.reports.map
      (fun rep => rep.record.map (fun r => (r.Rets.getD 0 GeneralType.zero).Integer)))
      = [some 0] ∧
    (statNolog true "/tmp/x" none).2.reports = [] := by
  refine ⟨rfl, rfl, rfl⟩

/-- C4: with the gate inactive every interposition point delivers zero
reports, and the operations return exactly the uninstrumented result —
`read` the raw `pfd.Read` outcome, `Pipe` the uninstrumented pipe body,
`openFileNolog` the uninstrumented open body. -/
theorem C4_gate_inactive_frame :
    (∀ f b res, File.read false f b res = (readUninstrumented res, ⟨[], []⟩)) ∧
    (∀ r2 rf, Pipe false r2 rf = some (pipeReal r2 rf)) ∧
    (∀ r2 rf, (pipeReal r2 rf).2.reports = []) ∧
    (∀ name flag perm o,
      openFileNolog false name flag perm o = (openReal name o, ⟨[], []⟩)) ∧
    (∀ f e, (File.Stat false f e).elim [] (fun out => out.2.reports) = []) ∧
    (∀ n e, (statNolog false n e).2.reports = []) ∧
    (∀ n e, (lstatNolog false n e).2.reports = []) ∧
    (∀ o n ln lo re, (rename false o n ln lo re).2.reports = []) ∧
    (∀ n e, (fileClose false n e).2.reports = []) ∧
    (∀ f b o r, (File.pread false f b o r).2.reports = []) ∧
    (∀ f b r, (File.write false f b r).2.reports = []) ∧
    (∀ f b o r, (File.pwrite false f b o r).2.reports = []) ∧
    (∀ f o w r, (File.seek false f o w r).2.reports = []) ∧
    (∀ n s e, (Truncate false n s e).2.reports = []) ∧
    (∀ o n e, (Link false o n e).2.reports = []) ∧
    (∀ o n e, (Symlink false o n e).2.reports = []) ∧
    (∀ er, (Executable false er).2.reports = []) := by
  refine ⟨fun f b res => rfl, fun r2 rf => rfl, ?_, fun n fl p o => rfl,
    ?_, ?_, ?_, ?_, ?_, fun f b o r => rfl, fun f b r => rfl,
    fun f b o r => rfl, fun f o w r => rfl, ?_, ?_, ?_, fun er => rfl⟩
  · intro r2 rf
    rw [pipeReal_effects]
  · intro f e
    cases f <;> rfl
  · intro n e
    cases e <;> rfl
  · intro n e
    cases e <;> rfl
  · intro o n ln lo re
    rcases ln with _ | b
    · cases re <;> rfl
    · cases b
      · cases re <;> rfl
      · cases lo <;> rfl
  · intro n e
    cases e <;> rfl
  · intro n s e
    cases e <;> rfl
  · intro o n e
    cases e <;> rfl
  · intro o n e
    cases e <;> rfl

/-- C5 counterexample: with the gate active, the report `os.Executable`
delivers does not carry an Event Record — refuting "every gated report
carries an Event Record of the fixed payload shape ... including the
executable-path-lookup wrapper". -/
theorem C5_counterexample_executable :
    (Executable true ("/bin/a", none)).2.reports.map Report.record = [none] ∧
    (Executable true ("/bin/a", none)).2.reports.map Report.id = [DSYS_EXECUTABLE] := by
  exact ⟨rfl, rfl⟩

/-- C5 amended: every gated report from every interposition point except
the executable-path-lookup wrapper carries an Event Record with declared
argument and result counts and two capacity-10 ordered lists of tagged
values; the executable wrapper's gated report carries the integer catalog
identity alone, with no Event Record. -/
theorem C5_payload_shape_except_executable :
    (∀ gate f e,
      ((File.Stat gate f e).elim [] (fun out => out.2.reports)).all repHasRecord = true) ∧
    (∀ gate n e, ((statNolog gate n e).2.reports.all repHasRecord) = true) ∧
    (∀ gate n e, ((lstatNolog gate n e).2.reports.all repHasRecord) = true) ∧
    (∀ gate o n ln lo re, ((rename gate o n ln lo re).2.reports.all repHasRecord) = true) ∧
    (∀ gate n fl p o, ((openFileNolog gate n fl p o).2.reports.all repHasRecord) = true) ∧
    (∀ gate n e, ((fileClose gate n e).2.reports.all repHasRecord) = true) ∧
    (∀ gate f b r, ((File.read gate f b r).2.reports.all repHasRecord) = true) ∧
    (∀ gate f b o r, ((File.pread gate f b o r).2.reports.all repHasRecord) = true) ∧
    (∀ gate f b r, ((File.write gate f b r).2.reports.all repHasRecord) = true) ∧
    (∀ gate f b o r, ((File.pwrite gate f b o r).2.reports.all repHasRecord) = true) ∧
    (∀ gate f o w r, ((File.seek gate f o w r).2.reports.all repHasRecord) = true) ∧
    (∀ gate n s e, ((Truncate gate n s e).2.reports.all repHasRecord) = true) ∧
    (∀ gate o n e, ((Link gate o n e).2.reports.all repHasRecord) = true) ∧
    (∀ gate o n e, ((Symlink gate o n e).2.reports.all repHasRecord) = true) ∧
    (∀ gate r2 rf,
      (((Pipe gate r2 rf).elim [] (fun out => out.2.reports)).all repHasRecord) = true) ∧
    (∀ gate er,
      ((Executable gate er).2.reports.all (fun rep => rep.record == none)) = true) := by
  refine ⟨?_, ?_, ?_, ?_, ?_, ?_, ?_, ?_, ?_, ?_, ?_, ?_, ?_, ?_, ?_, ?_⟩
  · intro gate f e
    cases gate <;> cases f <;> rfl
  · intro gate n e
    cases gate <;> cases e <;> rfl
  · intro gate n e
    cases gate <;> cases e <;> rfl
  · intro gate o n ln lo re
    rcases ln with _ | b
    · cases gate <;> cases re <;> rfl
    · cases b
      · cases gate <;> cases re <;> rfl
      · cases lo <;> rfl
  · intro gate n fl p o
    cases gate <;> rfl
  · intro gate n e
    cases gate <;> cases e <;> rfl
  · intro gate f b r
    cases gate <;> rfl
  · intro gate f b o r
    cases gate <;> rfl
  · intro gate f b r
    cases gate <;> rfl
  · intro gate f b o r
    cases gate <;> rfl
  · intro gate f o w r
    cases gate <;> rfl
  · intro gate n s e
    cases gate <;> cases e <;> rfl
  · intro gate o n e
    cases gate <;> cases e <;> rfl
  · intro gate o n e
    cases gate <;> cases e <;> rfl
  · intro gate r2 rf
    cases gate
    · show ((pipeReal r2 rf).2.reports.all _) = true
      rw [pipeReal_effects]
      rfl
    · rfl
  · intro gate er
    cases gate <;> rfl

/-- C6: with the gate active, opening `"/tmp/x"` with create+write flags
(`O_WRONLY|O_CREATE` = 65) and permission bits 0644 reports exactly one
record with identity DSYS_OPEN = 2, declared counts 3 and 2, arguments
STRING `"/tmp/x"` (zero-padded to the fixed buffer), INTEGER 65 and
INTEGER 420 = 0644, results a POINTER/Unsupported handle placeholder and
an ERROR/Unsupported presence slot — and the real call still returns the
valid handle. -/
theorem C6_open_scenario :
    (openFileNolog true "/tmp/x" 65 420 (.ok 3)).2.reports =
      [⟨DSYS_OPEN, some ⟨2, 3, 2,
        arr10 [{ Ty := .STRING,
                 Str := "/tmp/x".data ++ List.replicate 250 (Char.ofNat 0) },
               { Ty := .INTEGER, Integer := 65 },
               { Ty := .INTEGER, Integer := 420 }],
        arr10 [{ Ty := .POINTER, Unsupported := UNSUPPORTEDVAL },
               { Ty := .ERROR, Unsupported := UNSUPPORTEDVAL }]⟩⟩] ∧
    DSYS_OPEN = 2 ∧
    (openFileNolog true "/tmp/x" 65 420 (.ok 3)).1 =
      (some ⟨3, "/tmp/x"⟩, none) := by
  refine ⟨by decide, rfl, by decide⟩

/-- C9: every Event Record any interposition point ever delivers
satisfies the capacity invariant — declared argument and result counts at
most 10, both slot lists of length exactly 10, and every slot past the
declared counts still the zero value.  (Records are values constructed
once and consumed synchronously in this embedding, so construction-time
truth is all-time truth.) -/
theorem C9_capacity_invariant :
    (∀ gate f e,
      ((File.Stat gate f e).elim [] (fun out => out.2.reports)).all repWF = true) ∧
    (∀ gate n e, ((statNolog gate n e).2.reports.all repWF) = true) ∧
    (∀ gate n e, ((lstatNolog gate n e).2.reports.all repWF) = true) ∧
    (∀ gate o n ln lo re, ((rename gate o n ln lo re).2.reports.all repWF) = true) ∧
    (∀ gate n fl p o, ((openFileNolog gate n fl p o).2.reports.all repWF) = true) ∧
    (∀ gate n e, ((fileClose gate n e).2.reports.all repWF) = true) ∧
    (∀ gate f b r, ((File.read gate f b r).2.reports.all repWF) = true) ∧
    (∀ gate f b o r, ((File.pread gate f b o r).2.reports.all repWF) = true) ∧
    (∀ gate f b r, ((File.write gate f b r).2.reports.all repWF) = true) ∧
    (∀ gate f b o r, ((File.pwrite gate f b o r).2.reports.all repWF) = true) ∧
    (∀ gate f o w r, ((File.seek gate f o w r).2.reports.all repWF) = true) ∧
    (∀ gate n s e, ((Truncate gate n s e).2.reports.all repWF) = true) ∧
    (∀ gate o n e, ((Link gate o n e).2.reports.all repWF) = true) ∧
    (∀ gate o n e, ((Symlink gate o n e).2.reports.all repWF) = true) ∧
    (∀ gate r2 rf,
      (((Pipe gate r2 rf).elim [] (fun out => out.2.reports)).all repWF) = true) ∧
    (∀ gate er, ((Executable gate er).2.reports.all repWF) = true) := by
  refine ⟨?_, ?_, ?_, ?_, ?_, ?_, ?_, ?_, ?_, ?_, ?_, ?_, ?_, ?_, ?_, ?_⟩
  · intro gate f e
    cases gate <;> cases f <;> rfl
  · intro gate n e
    cases gate <;> cases e <;> rfl
  · intro gate n e
    cases gate <;> cases e <;> rfl
  · intro gate o n ln lo re
    rcases ln with _ | b
    · cases gate <;> cases re <;> rfl
    · cases b
      · cases gate <;> cases re <;> rfl
      · cases lo <;> rfl
  · intro gate n fl p o
    cases gate <;> rfl
  · intro gate n e
    cases gate <;> cases e <;> rfl
  · intro gate f b r
    cases gate <;> rfl
  · intro gate f b o r
    cases gate <;> rfl
  · intro gate f b r
    cases gate <;> rfl
  · intro gate f b o r
    cases gate <;> rfl
  · intro gate f o w r
    cases gate <;> rfl
  · intro gate n s e
    cases gate <;> cases e <;> rfl
  · intro gate o n e
    cases gate <;> cases e <;> rfl
  · intro gate o n e
    cases gate <;> cases e <;> rfl
  · intro gate r2 rf
    cases gate
    · show ((pipeReal r2 rf).2.reports.all _) = true
      rw [pipeReal_effects]
      rfl
    · rfl
  · intro gate er
    cases gate <;> rfl

/-- C10: `(*File).Stat` on a nil receiver returns `ErrInvalid` only with
the gate inactive; with the gate active the gate-guarded debug print
reads `f.file.name` before the nil-receiver check runs and faults, so the
nil check never protects the instrumented path (a non-nil receiver
proceeds to the stat body in both gate states, with the trace line the
only gated difference). -/
theorem C10_stat_nil_gate_dependent :
    (∀ e, File.Stat false none e = some ((none, some .errInvalid), ⟨[], []⟩)) ∧
    (∀ e, File.Stat true none e = none) ∧
    (∀ f e, File.Stat true (some f) e =
      some (statBody f.name e, ⟨[], ["[FSTAT] : " ++ f.name]⟩)) ∧
    (∀ f e, File.Stat false (some f) e = some (statBody f.name e, ⟨[], []⟩)) := by
  exact ⟨fun e => rfl, fun e => rfl, fun f e => rfl, fun f e => rfl⟩

end GoDist
